import Mathlib

/-!
Verification of the AMB print application: a shallow embedding of the
exporter validation pipeline (`src/exporters/base_exporter.py`,
`src/exporters/html_jinja_exporter.py`), the template generator
(`src/template_generator.py`), the batch processor
(`amb_print/core/batch_processor.py`) and the API upload script
(`scripts/06_api_upload.py`), together with theorems about the
behaviours the specification describes.

Python dictionaries are modelled as insertion-ordered association
lists, exceptions as explicit outcome types, and the file system as an
association list from paths to contents. All definitions are
executable so that concrete runs can be checked by evaluation.
-/

namespace AmbPrint

/-- Decides whether `pat` is a prefix of `cs`, character by character. -/
def charsPrefix : List Char → List Char → Bool
  | [], _ => true
  | _ :: _, [] => false
  | p :: ps, c :: cs => p == c && charsPrefix ps cs

/-- Decides whether the character list `pat` occurs contiguously in `cs`. -/
def charsContains (pat : List Char) : List Char → Bool
  | [] => pat.isEmpty
  | c :: cs => charsPrefix pat (c :: cs) || charsContains pat cs

/-- Decides whether the string `pat` occurs as a contiguous substring of `s`
(Python's `pat in s`). -/
def containsSubstr (s pat : String) : Bool :=
  charsContains pat.data s.data

/-- If `pat` is a prefix of the second list, returns the remainder
after it; otherwise `none`. -/
def stripPrefixChars : List Char → List Char → Option (List Char)
  | [], cs => Option.some cs
  | _ :: _, [] => Option.none
  | p :: ps, c :: cs => if p == c then stripPrefixChars ps cs else Option.none

/-- Left-to-right, non-overlapping replacement of `pat` by `repl`
(Python's `str.replace`), structured on a fuel argument so it is
kernel-reducible; the fuel is the input length, which always
suffices. An empty pattern leaves the input unchanged (the embedded
code only ever replaces a fixed non-empty pattern). -/
def charsReplaceFuel (pat repl : List Char) : Nat → List Char → List Char
  | 0, cs => cs
  | _ + 1, [] => []
  | fuel + 1, c :: cs =>
    match stripPrefixChars pat (c :: cs) with
    | Option.some rest =>
      if pat.isEmpty then c :: charsReplaceFuel pat repl fuel cs
      else repl ++ charsReplaceFuel pat repl fuel rest
    | Option.none => c :: charsReplaceFuel pat repl fuel cs

/-- `s.replace(pat, repl)` on strings. -/
def stringReplace (s pat repl : String) : String :=
  String.mk (charsReplaceFuel pat.data repl.data s.data.length s.data)

/-- A value stored in a field mapping. The exporters only ever
distinguish strings (`isinstance(v, str)`), lists of rows (the child
table) and Python `None` (the falsy non-string used by the tests), so
those are the inhabitants. -/
inductive Value where
  | str (s : String)
  | table (rows : List (List String))
  | none
deriving DecidableEq, Repr

/-- Python truthiness of a mapping value, as used by
`not mapping[field]` in `BaseExporter.validate_mandatory_fields`:
empty strings, empty lists and `None` are falsy. -/
def Value.falsy : Value → Bool
  | .str s => s.isEmpty
  | .table rows => rows.isEmpty
  | .none => true

/-- A field mapping: a Python `dict` from field names to values,
modelled as an insertion-ordered association list with unique keys. -/
abbrev Mapping := List (String × Value)

/-- `field in mapping` / `mapping[field]` on the association list. -/
def Mapping.lookup (m : Mapping) (k : String) : Option Value :=
  match m with
  | [] => Option.none
  | (k', v) :: rest => if k' == k then Option.some v else Mapping.lookup rest k

/-- The mutable state of a `BaseExporter` / `HTMLJinjaExporter`
instance: the fields set by `__init__` that the embedded methods read
or write (`self.errors`, `self.warnings`, `self.mapping`,
`self.jinja_template`; `self.html_content` and `self.metadata` are
never written by the embedded code paths and are omitted). -/
structure Exporter where
  errors : List String
  warnings : List String
  mapping : Mapping
  jinja_template : String
deriving DecidableEq, Repr

/-- A freshly constructed `HTMLJinjaExporter()`. -/
def Exporter.init : Exporter :=
  { errors := [], warnings := [], mapping := [], jinja_template := "" }

/-- `BaseExporter.add_error`. -/
def Exporter.add_error (st : Exporter) (e : String) : Exporter :=
  { st with errors := st.errors ++ [e] }

/-- `BaseExporter.clear_messages`. -/
def Exporter.clear_messages (st : Exporter) : Exporter :=
  { st with errors := [], warnings := [] }

/-- The message produced by `validate_mandatory_fields` for a missing
or falsy mandatory field: `Mandatory field '<field>' not mapped`. -/
def mandatoryFieldError (field : String) : String :=
  "Mandatory field \x27" ++ field ++ "\x27 not mapped"

/-- The message produced by `validate_child_table` when the table
field is absent: `Child table '<field>' not found in mapping`. -/
def childTableMissingError (table_field : String) : String :=
  "Child table \x27" ++ table_field ++ "\x27 not found in mapping"

/-- The message produced by `validate_child_table` when the table is
not a list or has too few rows. -/
def childTableRowsError (table_field : String) (min_rows found : Nat) : String :=
  "Child table \x27" ++ table_field ++ "\x27 requires " ++
    "at least " ++ toString min_rows ++ " row(s), found " ++ toString found

/-- `BaseExporter.validate_mandatory_fields`: walks the required
fields in order; on the first field that is absent or falsy it records
one error and returns `False`, otherwise returns `True`. -/
def Exporter.validate_mandatory_fields (st : Exporter) (mapping : Mapping) :
    List String → Bool × Exporter
  | [] => (true, st)
  | field :: rest =>
    match mapping.lookup field with
    | Option.none => (false, st.add_error (mandatoryFieldError field))
    | Option.some v =>
      if v.falsy then (false, st.add_error (mandatoryFieldError field))
      else st.validate_mandatory_fields mapping rest

/-- `BaseExporter.validate_child_table`: the table field must be
present, be a list, and have at least `min_rows` rows; otherwise one
error is recorded (reporting `0` rows found when the value is not a
list) and `False` is returned. -/
def Exporter.validate_child_table (st : Exporter) (mapping : Mapping)
    (table_field : String) (min_rows : Nat) : Bool × Exporter :=
  match mapping.lookup table_field with
  | Option.none => (false, st.add_error (childTableMissingError table_field))
  | Option.some (.table rows) =>
    if rows.length < min_rows then
      (false, st.add_error (childTableRowsError table_field min_rows rows.length))
    else (true, st)
  | Option.some _ => (false, st.add_error (childTableRowsError table_field min_rows 0))

/-- `HTMLJinjaExporter.validate_mapping`: clears messages, then checks
the mandatory field `product_item`, then the child table
`child_table` with `min_rows=1`, short-circuiting on failure. -/
def Exporter.validate_mapping (st : Exporter) (mapping : Mapping) : Bool × Exporter :=
  let st := st.clear_messages
  match st.validate_mandatory_fields mapping ["product_item"] with
  | (false, st) => (false, st)
  | (true, st) =>
    match st.validate_child_table mapping "child_table" 1 with
    | (false, st) => (false, st)
    | (true, st) => (true, st)

/-- The per-field line emitted by `_build_html_from_mapping` for a
top-level string field: the field NAME appears as literal text and the
field value is referenced only through the Jinja placeholder
`{{ doc.<name> }}`. -/
def fieldDivHtml (field_name : String) : String :=
  "<div><span class=\"field-label\">" ++ field_name ++ ":</span> " ++
    "<span>\x7b\x7b doc." ++ field_name ++ " \x7d\x7d</span></div>"

/-- `HTMLJinjaExporter._build_table_html`: header row of `Column i`
labels sized by the first data row, then a Jinja `for` loop whose
cells are `{{ row.field_i }}` placeholders. Returns `""` for an empty
table. -/
def build_table_html (table_data : List (List String)) : String :=
  match table_data with
  | [] => ""
  | row0 :: _ =>
    String.intercalate "\n"
      (["<div class=\"section\"><b>Child Table</b>", "<table>", "<thead><tr>"] ++
        (List.range row0.length).map
          (fun i => "<th>Column " ++ toString (i + 1) ++ "</th>") ++
        ["</tr></thead><tbody>", "\x7b% for row in doc.child_table %\x7d<tr>"] ++
        (List.range row0.length).map
          (fun i => "<td>\x7b\x7b row.field_" ++ toString i ++ " \x7d\x7d</td>") ++
        ["</tr>\x7b% endfor %\x7d</tbody></table></div>"])

/-- `HTMLJinjaExporter._build_html_from_mapping`: a `section` div with
one line per top-level string field other than `child_table`, followed
by the child table markup when `child_table` is present and a list. -/
def build_html_from_mapping (mapping : Mapping) : String :=
  let fieldParts := mapping.filterMap (fun p =>
    match p.2 with
    | .str _ => if p.1 == "child_table" then Option.none else Option.some (fieldDivHtml p.1)
    | _ => Option.none)
  let parts := ["<div class=\"section\">"] ++ fieldParts ++ ["</div>"]
  let parts := parts ++
    (match mapping.lookup "child_table" with
     | Option.some (.table rows) => [build_table_html rows]
     | _ => [])
  String.intercalate "\n" parts

/-- `HTMLJinjaExporter.JINJA_TEMPLATE_SKELETON`, transcribed verbatim
(braces written with hex escapes). -/
def JINJA_TEMPLATE_SKELETON : String :=
  "\n" ++
  "\x7b%- set doc = doc -%\x7d\n" ++
  "<!DOCTYPE html>\n" ++
  "<html>\n" ++
  "<head>\n" ++
  "    <meta charset=\"UTF-8\">\n" ++
  "    <style>\n" ++
  "        body \x7b font-family: Arial, sans-serif; margin: 20px; \x7d\n" ++
  "        .header \x7b font-size: 18px; font-weight: bold; margin-bottom: 20px; \x7d\n" ++
  "        .section \x7b margin-top: 15px; margin-bottom: 15px; \x7d\n" ++
  "        .field-label \x7b font-weight: bold; display: inline-block; width: 150px; \x7d\n" ++
  "        table \x7b width: 100%; border-collapse: collapse; margin-top: 10px; \x7d\n" ++
  "        th, td \x7b border: 1px solid #ddd; padding: 8px; text-align: left; \x7d\n" ++
  "        th \x7b background-color: #f2f2f2; \x7d\n" ++
  "    </style>\n" ++
  "</head>\n" ++
  "<body>\n" ++
  "    \x7b# Document Header #\x7d\n" ++
  "    <div class=\"header\">\x7b\x7b doc.name \x7d\x7d</div>\n" ++
  "    \n" ++
  "    \x7b# Document Fields #\x7d\n" ++
  "    <div class=\"section\">\n" ++
  "        \x7b\x7b content \x7d\x7d\n" ++
  "    </div>\n" ++
  "    \n" ++
  "    \x7b# Footer with metadata #\x7d\n" ++
  "    <div style=\"margin-top: 50px; font-size: 10px; color: #999;\">\n" ++
  "        <p>Generated on: \x7b\x7b now() \x7d\x7d</p>\n" ++
  "    </div>\n" ++
  "</body>\n" ++
  "</html>\n" ++
  "    "

/-- `HTMLJinjaExporter._generate_jinja_template`: substitutes the
built HTML content into the skeleton. -/
def generate_jinja_template (html_content : String) : String :=
  stringReplace JINJA_TEMPLATE_SKELETON "\x7b\x7b content \x7d\x7d" html_content

/-- `HTMLJinjaExporter.export_mapping`: validates, then stores the
mapping and the generated Jinja template on the instance and returns
the template (empty string when validation fails). -/
def Exporter.export_mapping (st : Exporter) (m : Mapping) : String × Exporter :=
  match st.validate_mapping m with
  | (false, st) => ("", st)
  | (true, st) =>
    let st := { st with mapping := m }
    let st := { st with jinja_template := generate_jinja_template (build_html_from_mapping m) }
    (st.jinja_template, st)

/-- The file system seen by `to_file`: an association list from paths
to file contents, newest write first. -/
abbrev FS := List (String × String)

/-- Writing a file: prepends the new (path, content) pair. -/
def FS.write (fs : FS) (path content : String) : FS :=
  (path, content) :: fs

/-- `HTMLJinjaExporter.to_file`: writes `self.jinja_template` to the
path. `writeErr` models the environment: `none` means the write
succeeds, `some e` means `open`/`write` raises with message `e`, in
which case the error is recorded and the file system is unchanged. -/
def Exporter.to_file (st : Exporter) (fs : FS) (filepath : String)
    (writeErr : Option String) : Bool × Exporter × FS :=
  match writeErr with
  | Option.none => (true, st, fs.write filepath st.jinja_template)
  | Option.some e => (false, st.add_error ("Failed to write template: " ++ e), fs)

/-- The dictionary returned by `HTMLJinjaExporter.export`. The error
dictionaries carry no `warnings` key; that is modelled as an empty
warnings list. -/
structure ExportResult where
  status : String
  output_path : Option String
  errors : List String
  warnings : List String
deriving DecidableEq, Repr

/-- `HTMLJinjaExporter.export`: clears messages, validates (returning
the error dictionary without touching the file system on failure),
otherwise regenerates the template via `export_mapping` and writes it
with `to_file`. -/
def Exporter.export (st : Exporter) (mapping : Mapping) (output_path : String)
    (fs : FS) (writeErr : Option String) : ExportResult × Exporter × FS :=
  match (st.clear_messages).validate_mapping mapping with
  | (false, st) =>
    ({ status := "error", output_path := Option.none, errors := st.errors,
       warnings := [] }, st, fs)
  | (true, st) =>
    let (_, st) := st.export_mapping mapping
    let (success, st, fs) := st.to_file fs output_path writeErr
    if success then
      ({ status := "success", output_path := Option.some output_path,
         errors := st.errors, warnings := st.warnings }, st, fs)
    else
      ({ status := "error", output_path := Option.none, errors := st.errors,
         warnings := [] }, st, fs)

/-! ## Template generator (`src/template_generator.py`) -/

/-- An extracted PDF element (`pdf_parser.PDFElement`). Only the
`element_type` and `content` attributes are read by the template
generator; the positional and font attributes (page, bbox, font,
size, confidence) play no role in the embedded code and are omitted. -/
structure PDFElement where
  element_type : String
  content : String
deriving DecidableEq, Repr

/-- One entry of the `fields` array built by
`TemplateGenerator.generate_json_template`. -/
structure JsonField where
  fieldname : String
  label : String
  fieldtype : String
  idx : Nat
deriving DecidableEq, Repr

/-- The `template_data` dictionary built by
`TemplateGenerator.generate_json_template` before serialization. -/
structure JsonTemplateData where
  doc_type : String
  name : String
  print_format_type : String
  fields : List JsonField
deriving DecidableEq, Repr

/-- Python's `enumerate(xs, n)`: pairs each element with its index
counted from `n`. -/
def enumerateFrom (n : Nat) : List α → List (Nat × α)
  | [] => []
  | x :: xs => (n, x) :: enumerateFrom (n + 1) xs

/-- The dictionary built by `TemplateGenerator.generate_json_template`:
a list comprehension over `enumerate(self.elements, 1)` keeping the
elements whose `element_type` is `"text"`, each becoming one field
entry carrying its enumeration index. -/
def generate_json_template_data (elements : List PDFElement) : JsonTemplateData :=
  { doc_type := "Print Format"
    name := "Custom Print Format"
    print_format_type := "Jinja"
    fields := (enumerateFrom 1 elements).filterMap (fun p =>
      if p.2.element_type = "text" then
        Option.some { fieldname := p.2.content, label := p.2.content,
                      fieldtype := "Data", idx := p.1 }
      else Option.none) }

/-- JSON string escaping as performed by `json.dumps` on the
characters that can occur here (backslash, quote and the common
control characters; other characters are emitted verbatim). -/
def pyJsonEscape (s : String) : String :=
  String.mk (s.data.foldr (fun c acc =>
    if c == '\\' then '\\' :: '\\' :: acc
    else if c == '"' then '\\' :: '"' :: acc
    else if c == '\n' then '\\' :: 'n' :: acc
    else if c == '\t' then '\\' :: 't' :: acc
    else if c == '\r' then '\\' :: 'r' :: acc
    else c :: acc) [])

/-- One `fields` entry as `json.dumps(..., indent=2)` prints it at
nesting depth 2. -/
def renderJsonField (f : JsonField) : String :=
  "    \x7b\n" ++
  "      \"fieldname\": \"" ++ pyJsonEscape f.fieldname ++ "\",\n" ++
  "      \"label\": \"" ++ pyJsonEscape f.label ++ "\",\n" ++
  "      \"fieldtype\": \"" ++ pyJsonEscape f.fieldtype ++ "\",\n" ++
  "      \"idx\": " ++ toString f.idx ++ "\n" ++
  "    \x7d"

/-- `json.dumps(template_data, indent=2)` for the fixed shape of
`template_data`. -/
def renderJsonTemplate (d : JsonTemplateData) : String :=
  "\x7b\n" ++
  "  \"doc_type\": \"" ++ pyJsonEscape d.doc_type ++ "\",\n" ++
  "  \"name\": \"" ++ pyJsonEscape d.name ++ "\",\n" ++
  "  \"print_format_type\": \"" ++ pyJsonEscape d.print_format_type ++ "\",\n" ++
  (match d.fields with
   | [] => "  \"fields\": []\n"
   | fs => "  \"fields\": [\n" ++
       String.intercalate ",\n" (fs.map renderJsonField) ++ "\n" ++
       "  ]\n") ++
  "\x7d"

/-- `TemplateGenerator.generate_json_template`: builds the
`template_data` dictionary and serializes it with indent 2. -/
def generate_json_template (elements : List PDFElement) : String :=
  renderJsonTemplate (generate_json_template_data elements)

/-- `TemplateGenerator.generate_html_template`: returns a fixed
template string (a plain Python string, so its doubled braces are
literal), transcribed verbatim with hex escapes for braces and
apostrophes. -/
def generate_html_template : String :=
  "\n" ++
  "\x7b% extends \"print_format.html\" %\x7d\n" ++
  "\n" ++
  "\x7b% block style %\x7d\n" ++
  "<style>\n" ++
  "    .print-format \x7b\x7b\n" ++
  "        font-family: Arial, sans-serif;\n" ++
  "        font-size: 12px;\n" ++
  "        line-height: 1.5;\n" ++
  "    \x7d\x7d\n" ++
  "    .section \x7b\x7b\n" ++
  "        margin-bottom: 20px;\n" ++
  "        page-break-inside: avoid;\n" ++
  "    \x7d\x7d\n" ++
  "    .title \x7b\x7b\n" ++
  "        font-size: 18px;\n" ++
  "        font-weight: bold;\n" ++
  "        margin-bottom: 10px;\n" ++
  "    \x7d\x7d\n" ++
  "    .field-label \x7b\x7b\n" ++
  "        font-weight: bold;\n" ++
  "        display: inline-block;\n" ++
  "        width: 150px;\n" ++
  "    \x7d\x7d\n" ++
  "    .field-value \x7b\x7b\n" ++
  "        display: inline-block;\n" ++
  "    \x7d\x7d\n" ++
  "    table \x7b\x7b\n" ++
  "        width: 100%;\n" ++
  "        border-collapse: collapse;\n" ++
  "        margin-top: 10px;\n" ++
  "    \x7d\x7d\n" ++
  "    th, td \x7b\x7b\n" ++
  "        border: 1px solid #ccc;\n" ++
  "        padding: 8px;\n" ++
  "        text-align: left;\n" ++
  "    \x7d\x7d\n" ++
  "    th \x7b\x7b\n" ++
  "        background-color: #f5f5f5;\n" ++
  "        font-weight: bold;\n" ++
  "    \x7d\x7d\n" ++
  "</style>\n" ++
  "\x7b% endblock %\x7d\n" ++
  "\n" ++
  "\x7b% block content %\x7d\n" ++
  "<div class=\"print-format\">\n" ++
  "    <div class=\"section\">\n" ++
  "        <div class=\"title\">\x7b\x7b doc.name \x7d\x7d</div>\n" ++
  "    </div>\n" ++
  "    \n" ++
  "    \x7b% for element in elements %\x7d\n" ++
  "    \x7b% if element.type == \x27text\x27 %\x7d\n" ++
  "    <div class=\"field\">\n" ++
  "        <span class=\"field-label\">\x7b\x7b element.content \x7d\x7d:</span>\n" ++
  "        <span class=\"field-value\">\x7b\x7b doc.get(element.content, \x27\x27) \x7d\x7d</span>\n" ++
  "    </div>\n" ++
  "    \x7b% endif %\x7d\n" ++
  "    \x7b% endfor %\x7d\n" ++
  "</div>\n" ++
  "\x7b% endblock %\x7d\n" ++
  "        "

/-- The template generator instance: `self.output_format` (set in
`__init__`, `'html'` or `'json'`) and `self.elements` (set by
`set_elements`). -/
structure TemplateGenerator where
  output_format : String
  elements : List PDFElement
deriving DecidableEq, Repr

/-- `TemplateGenerator.generate`: returns `""` when no elements are
set; otherwise dispatches on the output format, defaulting to HTML
for any format other than `"json"`. -/
def TemplateGenerator.generate (g : TemplateGenerator) : String :=
  if g.elements.isEmpty then ""
  else if g.output_format == "json" then generate_json_template g.elements
  else generate_html_template

/-! ## Batch processor (`amb_print/core/batch_processor.py`) -/

/-- The result dictionary of `BatchProcessor.process_document_type`.
Each error record is a (document name, error message) pair. -/
structure BatchResults where
  doctype : String
  processed : Nat
  success : Nat
  failed : Nat
  errors : List (String × String)
deriving DecidableEq, Repr

/-- The body of the loop in `BatchProcessor.process_document_type`
for one document: increments `processed`, runs
`_process_single_document` (modelled as the function `process`,
returning `Except.error e` when it raises an exception with message
`e`) inside the `try`, and either increments `success` or increments
`failed` and appends an error record. -/
def processStep (process : String → Except String Unit)
    (r : BatchResults) (name : String) : BatchResults :=
  let r := { r with processed := r.processed + 1 }
  match process name with
  | Except.ok _ => { r with success := r.success + 1 }
  | Except.error e => { r with failed := r.failed + 1, errors := r.errors ++ [(name, e)] }

/-- `BatchProcessor.process_document_type`: iterates the documents
returned by `frappe.get_all` (modelled as the list `docs` of document
names), running the loop body on each from the initial `results`
dictionary; an exception in one document never stops the loop. -/
def process_document_type (doctype : String) (docs : List String)
    (process : String → Except String Unit) : BatchResults :=
  docs.foldl (processStep process)
    { doctype := doctype, processed := 0, success := 0, failed := 0, errors := [] }

/-! ## API upload script (`scripts/06_api_upload.py`) -/

/-- A print format as read from the formats file; the only attribute
the upload loop itself reads is `format_data.get('name')`. -/
structure PrintFormat where
  name : Option String
deriving DecidableEq, Repr

/-- An entry of the `errors` list in the upload statistics: either a
per-format failure record or a file-level failure record. -/
inductive UploadError where
  | formatError (format : Option String) (error : String)
  | fileError (file : String) (error : String)
deriving DecidableEq, Repr

/-- The `stats` dictionary returned by
`ERPNextAPIClient.batch_upload`. -/
structure UploadStats where
  total : Nat
  success : Nat
  failed : Nat
  errors : List UploadError
deriving DecidableEq, Repr

/-- The outcome of opening and `json.load`-ing the formats file:
either a list of formats, or one of the exceptions the `except`
clauses of `batch_upload` catch. -/
inductive ReadOutcome where
  | ok (formats : List PrintFormat)
  | fileNotFound
  | jsonDecodeError (msg : String)
  | otherError (msg : String)
deriving DecidableEq, Repr

/-- `ERPNextAPIClient.batch_upload`: on a successful read, uploads
each format (the network is modelled by `upload`, returning the
(success, response-or-message) pair of `upload_print_format`, which
never raises), counting successes and failures; when reading the file
raises, the exception handlers record one file-level error entry and
return the statistics accumulated so far — with `failed` still `0`. -/
def batch_upload (read : ReadOutcome) (formats_file : String)
    (upload : PrintFormat → Bool × String) : UploadStats :=
  match read with
  | .ok formats =>
    formats.foldl (fun s fd =>
      match upload fd with
      | (true, _) => { s with success := s.success + 1 }
      | (false, resp) =>
        { s with failed := s.failed + 1,
                 errors := s.errors ++ [UploadError.formatError fd.name resp] })
      { total := formats.length, success := 0, failed := 0, errors := [] }
  | .fileNotFound =>
    { total := 0, success := 0, failed := 0,
      errors := [UploadError.fileError formats_file "File not found"] }
  | .jsonDecodeError m =>
    { total := 0, success := 0, failed := 0,
      errors := [UploadError.fileError formats_file ("JSON decode error: " ++ m)] }
  | .otherError m =>
    { total := 0, success := 0, failed := 0,
      errors := [UploadError.fileError formats_file m] }

/-- The outcome of the credentials stage of `main`:
`load_credentials` either raises (re-raised out of the handler and
caught by `main`'s `except`, which exits with code 1) or returns; the
Boolean records whether `credentials.get(env)` is non-empty. -/
inductive CredsOutcome where
  | ok (envConfigPresent : Bool)
  | loadError (msg : String)
deriving DecidableEq, Repr

/-- `main` of `scripts/06_api_upload.py`, reduced to its exit code:
1 when the credentials file cannot be loaded or has no entry for the
chosen environment, otherwise 0 exactly when the `failed` counter of
the batch-upload statistics is 0. -/
def apiUploadMain (creds : CredsOutcome) (read : ReadOutcome) (formats_file : String)
    (upload : PrintFormat → Bool × String) : Nat :=
  match creds with
  | .loadError _ => 1
  | .ok false => 1
  | .ok true => if (batch_upload read formats_file upload).failed == 0 then 0 else 1

/-- Full success of an API upload run as the specification describes
it: credentials loaded and environment configured, the formats file
read, and every format uploaded successfully (equivalently, no error
entry was recorded). -/
def uploadRunFullySucceeded (creds : CredsOutcome) (read : ReadOutcome)
    (formats_file : String) (upload : PrintFormat → Bool × String) : Prop :=
  creds = CredsOutcome.ok true ∧ (∃ formats, read = ReadOutcome.ok formats) ∧
    (batch_upload read formats_file upload).errors = []

/-! ## JSON exporter round trip -/

/-- A JSON document, as produced by serializing a mapping and parsed
back when reloading it. -/
inductive Json where
  | null
  | str (s : String)
  | arr (elems : List Json)
  | obj (members : List (String × Json))
deriving Repr

/-- Modelled from the spec: the JSON exporter (`json_exporter.py`,
imported by `src/exporters/__init__.py` but not present in the
repository) serializes a field mapping to a JSON document; each
string field becomes a JSON string, the child table becomes an array
of arrays of strings, and `None` becomes JSON null. -/
def valueToJson : Value → Json
  | .str s => Json.str s
  | .table rows => Json.arr (rows.map (fun r => Json.arr (r.map Json.str)))
  | .none => Json.null

/-- Modelled from the spec: reading one JSON value back into a
mapping value when the produced JSON is reloaded (strings back to
string fields, arrays back to tables, null back to `None`). -/
def jsonToValue : Json → Value
  | Json.str s => Value.str s
  | Json.arr rows => Value.table (rows.map (fun r =>
      match r with
      | Json.arr cells => cells.map (fun c => match c with | Json.str s => s | _ => "")
      | _ => []))
  | _ => Value.none

/-- Modelled from the spec: `JSONExporter.export_mapping` serializes
the whole mapping as a JSON object, one member per field in order. -/
def JSONExporter.export_mapping (m : Mapping) : Json :=
  Json.obj (m.map (fun p => (p.1, valueToJson p.2)))

/-- Modelled from the spec: reloading the produced JSON document
yields a mapping again (only a JSON object is a valid mapping
document). -/
def JSONExporter.reload : Json → Option Mapping
  | Json.obj members => Option.some (members.map (fun p => (p.1, jsonToValue p.2)))
  | _ => Option.none

/-- The number of child-table rows of a mapping (0 when `child_table`
is absent or not a table). -/
def Mapping.childRowCount (m : Mapping) : Nat :=
  match m.lookup "child_table" with
  | Option.some (.table rows) => rows.length
  | _ => 0

/-! ## Helper lemmas -/

set_option maxRecDepth 1000000

/-- Mapping a pointwise-identity function over a list is the identity. -/
theorem map_id_of_eq {α : Type} {f : α → α} (h : ∀ x, f x = x) : ∀ l : List α, l.map f = l
  | [] => rfl
  | x :: xs => by rw [List.map_cons, h x, map_id_of_eq h xs]

/-- Reading back a serialized mapping value restores it. -/
theorem jsonToValue_valueToJson (v : Value) : jsonToValue (valueToJson v) = v := by
  cases v with
  | str s => rfl
  | none => rfl
  | table rows =>
    simp only [valueToJson, jsonToValue, List.map_map, Value.table.injEq]
    exact map_id_of_eq (fun r => by simp [Function.comp, List.map_map, map_id_of_eq]) rows

/-- Reloading the JSON produced for a mapping restores the mapping
exactly. -/
theorem reload_export (m : Mapping) :
    JSONExporter.reload (JSONExporter.export_mapping m) = Option.some m := by
  simp only [JSONExporter.reload, JSONExporter.export_mapping, List.map_map, Option.some.injEq]
  exact map_id_of_eq (fun p => by simp [Function.comp, jsonToValue_valueToJson]) m

/-- When every element is a text element, the `fields` comprehension
keeps them all and the enumeration indices come out as the contiguous
range starting at `n`. -/
theorem jsonFields_all_text (n : Nat) (es : List PDFElement)
    (h : ∀ e ∈ es, e.element_type = "text") :
    ((enumerateFrom n es).filterMap (fun p =>
      if p.2.element_type = "text" then
        Option.some { fieldname := p.2.content, label := p.2.content,
                      fieldtype := "Data", idx := p.1 }
      else Option.none) : List JsonField).map JsonField.idx = List.range' n es.length := by
  induction es generalizing n with
  | nil => simp [enumerateFrom]
  | cons e es ih =>
    have he : e.element_type = "text" := h e (by simp)
    simp only [enumerateFrom, List.filterMap_cons, he, if_pos, List.length_cons,
      List.range'_succ, List.map_cons]
    exact congrArg _ (ih (n + 1) (fun x hx => h x (by simp [hx])))

/-- The field names produced by the `fields` comprehension are exactly
the contents of the text elements, in order and with multiplicity. -/
theorem jsonFields_names (n : Nat) (es : List PDFElement) :
    ((enumerateFrom n es).filterMap (fun p =>
      if p.2.element_type = "text" then
        Option.some { fieldname := p.2.content, label := p.2.content,
                      fieldtype := "Data", idx := p.1 }
      else Option.none) : List JsonField).map JsonField.fieldname =
      (es.filter (fun e => e.element_type = "text")).map PDFElement.content := by
  induction es generalizing n with
  | nil => simp [enumerateFrom]
  | cons e es ih =>
    simp only [enumerateFrom, List.filterMap_cons, List.filter_cons]
    by_cases he : e.element_type = "text"
    · simp [he, ih (n + 1)]
    · simp [he, ih (n + 1)]

/-- The loop of `process_document_type` preserves the counter
invariants for any starting accumulator. -/
theorem batch_foldl_invariant (process : String → Except String Unit) (docs : List String) :
    ∀ r0 : BatchResults,
    (docs.foldl (processStep process) r0).processed = r0.processed + docs.length ∧
    (docs.foldl (processStep process) r0).success + (docs.foldl (processStep process) r0).failed
      = r0.success + r0.failed + docs.length ∧
    (docs.foldl (processStep process) r0).errors.length + r0.failed
      = r0.errors.length + (docs.foldl (processStep process) r0).failed := by
  induction docs with
  | nil => intro r0; simp
  | cons d ds ih =>
    intro r0
    simp only [List.foldl_cons]
    cases hp : process d with
    | ok u =>
      have hstep : processStep process r0 d =
          { r0 with processed := r0.processed + 1, success := r0.success + 1 } := by
        simp [processStep, hp]
      rw [hstep]
      obtain ⟨h1, h2, h3⟩ :=
        ih { r0 with processed := r0.processed + 1, success := r0.success + 1 }
      simp only [List.length_cons] at *
      refine ⟨by omega, by omega, by omega⟩
    | error e =>
      have hstep : processStep process r0 d =
          { r0 with processed := r0.processed + 1, failed := r0.failed + 1,
                    errors := r0.errors ++ [(d, e)] } := by
        simp [processStep, hp]
      rw [hstep]
      obtain ⟨h1, h2, h3⟩ :=
        ih { r0 with processed := r0.processed + 1, failed := r0.failed + 1,
                     errors := r0.errors ++ [(d, e)] }
      simp only [List.length_cons, List.length_append, List.length_nil] at *
      refine ⟨by omega, by omega, by omega⟩

/-! ## Claim theorems -/

/-- C1: for every mapping that fails exporter validation,
`HTMLJinjaExporter.export` returns a result with status `"error"`,
`output_path = None` and the error list accumulated by validation, and
leaves the file system unchanged (no output file is written on the
error path). -/
theorem export_invalid_mapping_short_circuits (st : Exporter) (m : Mapping) (path : String)
    (fs : FS) (writeErr : Option String) (h : (st.validate_mapping m).1 = false) :
    (st.export m path fs writeErr).1.status = "error" ∧
    (st.export m path fs writeErr).1.output_path = Option.none ∧
    (st.export m path fs writeErr).1.errors = (st.validate_mapping m).2.errors ∧
    (st.export m path fs writeErr).2.2 = fs := by
  have hcl : (st.clear_messages).validate_mapping m = st.validate_mapping m := rfl
  unfold Exporter.export
  rw [hcl]
  rcases hv : st.validate_mapping m with ⟨b, st2⟩
  rw [hv] at h
  simp at h
  subst h
  simp

/-- Witness for C1: the empty mapping fails validation, and exporting
it returns the error result and leaves the file system untouched. -/
theorem export_invalid_mapping_short_circuits_witness :
    (Exporter.init.validate_mapping []).1 = false ∧
    ((Exporter.init.export [] "out.html" [] Option.none).1.status = "error" ∧
     (Exporter.init.export [] "out.html" [] Option.none).1.output_path = Option.none ∧
     (Exporter.init.export [] "out.html" [] Option.none).1.errors =
       (Exporter.init.validate_mapping []).2.errors ∧
     (Exporter.init.export [] "out.html" [] Option.none).2.2 = []) :=
  ⟨by decide,
   export_invalid_mapping_short_circuits Exporter.init [] "out.html" [] Option.none (by decide)⟩

/-- C2: for every mapping in which `product_item` is absent or falsy,
`HTMLJinjaExporter.validate_mapping` returns `False` and the error
list afterwards holds exactly one error, which mentions the mandatory
field. -/
theorem validate_mapping_missing_mandatory_field (st : Exporter) (m : Mapping)
    (h : (m.lookup "product_item").all Value.falsy = true) :
    (st.validate_mapping m).1 = false ∧
    (st.validate_mapping m).2.errors = [mandatoryFieldError "product_item"] ∧
    containsSubstr (mandatoryFieldError "product_item") "product_item" = true := by
  refine ⟨?_, ?_, by decide⟩ <;>
  · cases hv : m.lookup "product_item" with
    | none =>
      simp [Exporter.validate_mapping, Exporter.validate_mandatory_fields, hv,
        Exporter.add_error, Exporter.clear_messages]
    | some v =>
      rw [hv] at h
      simp only [Option.all_some] at h
      simp [Exporter.validate_mapping, Exporter.validate_mandatory_fields, hv, h,
        Exporter.add_error, Exporter.clear_messages]

/-- Witness for C2: validating the empty mapping (mandatory field
absent) yields `False` and the single mandatory-field error. -/
theorem validate_mapping_missing_mandatory_field_witness :
    (Mapping.lookup [] "product_item").all Value.falsy = true ∧
    ((Exporter.init.validate_mapping []).1 = false ∧
     (Exporter.init.validate_mapping []).2.errors = [mandatoryFieldError "product_item"] ∧
     containsSubstr (mandatoryFieldError "product_item") "product_item" = true) :=
  ⟨by decide, validate_mapping_missing_mandatory_field Exporter.init [] (by decide)⟩

/-- Counterexample for C3 as stated: a mapping whose `child_table` is
an empty list but whose `product_item` is absent is indeed rejected
with exactly one error, but that error is the mandatory-field error —
it is not about the child table. -/
theorem empty_child_table_error_not_about_child_table :
    (Exporter.init.validate_mapping [("child_table", Value.table [])]).1 = false ∧
    (Exporter.init.validate_mapping [("child_table", Value.table [])]).2.errors =
      [mandatoryFieldError "product_item"] ∧
    containsSubstr (mandatoryFieldError "product_item") "child_table" = false ∧
    containsSubstr (mandatoryFieldError "product_item") "Child table" = false := by
  decide

/-- C3 (amended): for every mapping whose mandatory field
`product_item` is present and non-falsy and whose `child_table` is a
list with zero rows, `validate_mapping` returns `False` and the error
list afterwards holds exactly one error, which is about the child
table. -/
theorem validate_mapping_empty_child_table (st : Exporter) (m : Mapping)
    (hp : ∃ v, m.lookup "product_item" = Option.some v ∧ v.falsy = false)
    (hc : m.lookup "child_table" = Option.some (Value.table [])) :
    (st.validate_mapping m).1 = false ∧
    (st.validate_mapping m).2.errors = [childTableRowsError "child_table" 1 0] ∧
    containsSubstr (childTableRowsError "child_table" 1 0) "Child table" = true := by
  obtain ⟨v, hv, hfalsy⟩ := hp
  refine ⟨?_, ?_, by decide⟩ <;>
  · simp [Exporter.validate_mapping, Exporter.validate_mandatory_fields,
      Exporter.validate_child_table, hv, hfalsy, hc,
      Exporter.add_error, Exporter.clear_messages]

/-- Witness for the amended C3: a mapping with a non-empty
`product_item` and an empty child table gets exactly the child-table
error. -/
theorem validate_mapping_empty_child_table_witness :
    (∃ v, Mapping.lookup [("product_item", Value.str "Product-001"),
            ("child_table", Value.table [])] "product_item" = Option.some v ∧
          v.falsy = false) ∧
    ((Exporter.init.validate_mapping [("product_item", Value.str "Product-001"),
        ("child_table", Value.table [])]).1 = false ∧
     (Exporter.init.validate_mapping [("product_item", Value.str "Product-001"),
        ("child_table", Value.table [])]).2.errors = [childTableRowsError "child_table" 1 0] ∧
     containsSubstr (childTableRowsError "child_table" 1 0) "Child table" = true) :=
  ⟨⟨Value.str "Product-001", rfl, rfl⟩,
   validate_mapping_empty_child_table Exporter.init
     [("product_item", Value.str "Product-001"), ("child_table", Value.table [])]
     ⟨Value.str "Product-001", rfl, rfl⟩ rfl⟩

/-- C4 (evaluation at the failing input): exporting the valid mapping
`\x7bproduct_item: "Product-001", child_table: [["ITEM-001","10","100"]]\x7d`
succeeds and writes a non-empty file containing `<html` and `</html>`,
but the file contains only the Jinja placeholder
`\x7b\x7b doc.product_item \x7d\x7d` — the mapped value `Product-001`
never appears in it as literal text, contradicting the claim (and the
repository's own test `test_html_contains_product_item`). -/
theorem export_writes_placeholder_not_value :
    let m : Mapping := [("product_item", Value.str "Product-001"),
                        ("child_table", Value.table [["ITEM-001", "10", "100"]])]
    let out := Exporter.init.export m "output.html" [] Option.none
    let content := (out.2.2.headD ("", "")).2
    out.1.status = "success" ∧
    out.1.output_path = Option.some "output.html" ∧
    out.2.2.map Prod.fst = ["output.html"] ∧
    content.isEmpty = false ∧
    containsSubstr content "<html" = true ∧
    containsSubstr content "</html>" = true ∧
    containsSubstr content "\x7b\x7b doc.product_item \x7d\x7d" = true ∧
    containsSubstr content "Product-001" = false := by
  decide

/-- C5: serializing any mapping with the JSON exporter and reloading
the produced JSON yields a mapping with the same mandatory-field value
and the same number of child-table rows. -/
theorem json_export_reload_round_trip (m : Mapping) :
    ∃ m', JSONExporter.reload (JSONExporter.export_mapping m) = Option.some m' ∧
      m'.lookup "product_item" = m.lookup "product_item" ∧
      m'.childRowCount = m.childRowCount :=
  ⟨m, reload_export m, rfl, rfl⟩

/-- C6: for every element list of exactly 100 text elements (and no
other elements), the generated JSON template's `fields` array has
exactly 100 entries whose `idx` values are `1, 2, ..., 100` in
order. -/
theorem json_template_100_text_elements (es : List PDFElement) (hlen : es.length = 100)
    (htext : ∀ e ∈ es, e.element_type = "text") :
    (generate_json_template_data es).fields.length = 100 ∧
    (generate_json_template_data es).fields.map JsonField.idx = List.range' 1 100 := by
  have hfields : (generate_json_template_data es).fields.map JsonField.idx
      = List.range' 1 es.length := jsonFields_all_text 1 es htext
  constructor
  · have := congrArg List.length hfields
    simpa [hlen] using this
  · rw [hfields, hlen]

/-- Witness for C6: 100 identical text elements produce 100 field
entries indexed 1..100. -/
theorem json_template_100_text_elements_witness :
    (generate_json_template_data (List.replicate 100 (PDFElement.mk "text" "field1"))).fields.length
      = 100 ∧
    (generate_json_template_data (List.replicate 100 (PDFElement.mk "text" "field1"))).fields.map
      JsonField.idx = List.range' 1 100 :=
  json_template_100_text_elements (List.replicate 100 (PDFElement.mk "text" "field1"))
    (by decide) (by decide)

/-- Counterexample for C7 as stated: two text elements with the same
content produce TWO field entries with the same name in the `fields`
array — nothing is overwritten, so the array does not keep only one
entry per distinct name. -/
theorem json_template_duplicate_names_cex :
    (generate_json_template_data
        [PDFElement.mk "text" "product_name", PDFElement.mk "text" "product_name"]).fields.map
      JsonField.fieldname = ["product_name", "product_name"] ∧
    (generate_json_template_data
        [PDFElement.mk "text" "product_name", PDFElement.mk "text" "product_name"]).fields.length
      ≠ 1 := by
  decide

/-- C7 (amended): the JSON template keeps one field entry per text
element occurrence, in order — duplicate names all appear (nothing
overwrites, no deduplication and no error). -/
theorem json_template_keeps_all_duplicate_names (es : List PDFElement) :
    (generate_json_template_data es).fields.map JsonField.fieldname =
      (es.filter (fun e => e.element_type = "text")).map PDFElement.content ∧
    (generate_json_template_data es).fields.length =
      (es.filter (fun e => e.element_type = "text")).length := by
  have h : (generate_json_template_data es).fields.map JsonField.fieldname =
      (es.filter (fun e => e.element_type = "text")).map PDFElement.content :=
    jsonFields_names 1 es
  refine ⟨h, ?_⟩
  have h2 := congrArg List.length h
  simp only [List.length_map] at h2
  exact h2

/-- C8 (evaluation at the failing input): when the formats file is
missing, `batch_upload` records a file-level error entry but leaves
`failed` at 0, so `main` exits with code 0 even though the run did not
fully succeed — contradicting the claim that any failure yields exit
code 1. -/
theorem upload_missing_formats_file_exits_zero :
    apiUploadMain (CredsOutcome.ok true) ReadOutcome.fileNotFound "formats.json"
        (fun _ => (true, "ok")) = 0 ∧
    (batch_upload ReadOutcome.fileNotFound "formats.json" (fun _ => (true, "ok"))).failed = 0 ∧
    (batch_upload ReadOutcome.fileNotFound "formats.json" (fun _ => (true, "ok"))).errors ≠ [] ∧
    ¬ uploadRunFullySucceeded (CredsOutcome.ok true) ReadOutcome.fileNotFound "formats.json"
        (fun _ => (true, "ok")) := by
  refine ⟨rfl, rfl, by simp [batch_upload], ?_⟩
  rintro ⟨-, ⟨formats, hf⟩, -⟩
  exact ReadOutcome.noConfusion hf

/-- C9: for every document list, `process_document_type` returns a
result with `processed = docs.length`, `processed = success + failed`
and one error record per failure — and since `processed` counts every
document, an exception in one document never stops the iteration. -/
theorem process_document_type_counters_invariant (doctype : String) (docs : List String)
    (process : String → Except String Unit) :
    (process_document_type doctype docs process).processed = docs.length ∧
    (process_document_type doctype docs process).processed =
      (process_document_type doctype docs process).success +
        (process_document_type doctype docs process).failed ∧
    (process_document_type doctype docs process).errors.length =
      (process_document_type doctype docs process).failed := by
  obtain ⟨h1, h2, h3⟩ := batch_foldl_invariant process docs
    { doctype := doctype, processed := 0, success := 0, failed := 0, errors := [] }
  unfold process_document_type
  simp only [List.length_nil, Nat.add_zero, Nat.zero_add] at h1 h2 h3
  refine ⟨by omega, by omega, by omega⟩

/-- C10: with an empty element list, `TemplateGenerator.generate`
returns the empty string for every configured output format — neither
the HTML skeleton nor an empty JSON schema is produced. -/
theorem generate_empty_elements_returns_empty (fmt : String) :
    (TemplateGenerator.mk fmt []).generate = "" := rfl

end AmbPrint
